import Mathlib

set_option maxRecDepth 100000

/-
  Shallow embedding of eval_utils.py (class TravelAgentEvaluator) from the
  travel-agent evaluation repository.

  Modelling conventions:
  * Python strings are `List Char`; `str.lower()` is `lower` (ASCII, matching
    `Char.toLower`); the substring operator `in` is `List.IsInfix` (`<:+:`).
  * Python floats are embedded as exact rationals `ℚ`.  Every score reachable
    by the accumulation chains in the three scorers compares to the thresholds
    0.7 / 0.8 exactly as IEEE-754 doubles do, so the embedding is faithful at
    every branch the code can take.
  * `num_days` is an arbitrary Python int, embedded as `ℤ`; `str(num_days)`
    is `intStr`.
  * The external generation collaborator (`_generate_response`, which calls
    `travel_agent.generate_itinerary`) is a parameter of type `Generator`;
    an exception with message `e` is `Except.error e`.
  * A Python `KeyError` escaping a function is `Except.error` in that
    function's result type.  In `_evaluate_single_case` the accesses
    `test_case["input"]["destination"]` and `["num_days"]` (lines 103-104)
    happen BEFORE the `try:` block, so a missing key escapes the case
    evaluator; the embedding mirrors that with the `Except String` layer of
    `evaluate_single_case`.
  * The JSONL log file is a `List LogEntry` in append order.
-/

namespace TravelEval

/-- Python `str.lower()` on the character list (ASCII, as in this repo). -/
def lower (s : List Char) : List Char := s.map Char.toLower

/-- Python `str(num_days)` for an int. -/
def intStr (n : Int) : List Char := (toString n).toList

/-- One `if <cond>: score += w` step of the scorers in eval_utils.py. -/
def addIf (c : Prop) [Decidable c] (w s : ℚ) : ℚ := if c then s + w else s

/-- Python `min(a, b)` on two floats, as used in `min(score, 1.0)`. -/
def pymin (a b : ℚ) : ℚ := if a ≤ b then a else b

/-- Worker for `countOccs`, structurally recursive on a fuel argument so that
it evaluates in the kernel; the fuel never runs out when it starts at the
length of the scanned list (each step strictly shortens the list). -/
def countOccsAux (pat : List Char) : Nat → List Char → Nat
  | _, [] => 0
  | 0, _ :: _ => 0
  | fuel + 1, c :: rest =>
    if pat ≠ [] ∧ pat <+: (c :: rest) then
      1 + countOccsAux pat fuel (rest.drop (pat.length - 1))
    else
      countOccsAux pat fuel rest

/-- Non-overlapping left-to-right substring occurrence count, Python
`str.count` for a nonempty pattern (the only use in the source is the
pattern "day"): on a match, scanning resumes after the matched span. -/
def countOccs (pat s : List Char) : Nat := countOccsAux pat s.length s

/-- Keyword set of the travel-related-content check in `_evaluate_relevance`. -/
def travelKeywords : List (List Char) :=
  (["visit", "explore", "see", "tour", "accommodation", "hotel", "restaurant"] :
    List String).map String.toList

/-- `TravelAgentEvaluator._evaluate_relevance` (eval_utils.py lines 173-204). -/
def evaluate_relevance (destination : List Char) (num_days : Int)
    (response : List Char) : ℚ :=
  pymin
    (addIf (∃ k ∈ travelKeywords, k <:+: lower response) (2/10)
      (addIf ("day".toList <:+: lower response ∧
              ("1".toList <:+: response ∨ "first".toList <:+: lower response)) (2/10)
        (addIf (intStr num_days <:+: response ∨
                (intStr num_days ++ "-day".toList) <:+: lower response) (3/10)
          (addIf (lower destination <:+: lower response) (3/10) 0))))
    1

/-- `TravelAgentEvaluator._evaluate_contains` (eval_utils.py lines 206-231). -/
def evaluate_contains (destination : List Char) (response : List Char) : ℚ :=
  pymin
    (addIf ("itinerary".toList <:+: lower response) (3/10)
      (addIf ("day 1".toList <:+: lower response ∨
              "day one".toList <:+: lower response) (3/10)
        (addIf (lower destination <:+: lower response) (4/10) 0)))
    1

/-- Keyword set of the specific-activities check in `_evaluate_quality`. -/
def activityKeywords : List (List Char) :=
  (["visit", "explore", "see", "tour", "museum", "park", "restaurant"] :
    List String).map String.toList

/-- Keyword set of the accommodations check in `_evaluate_quality`. -/
def accommodationKeywords : List (List Char) :=
  (["hotel", "accommodation", "stay", "lodging"] : List String).map String.toList

/-- `TravelAgentEvaluator._evaluate_quality` (eval_utils.py lines 233-269). -/
def evaluate_quality (response : List Char) (num_days : Int) : ℚ :=
  pymin
    (addIf (num_days ≤ (countOccs ("day".toList) (lower response) : Int)) (2/10)
      (addIf (200 < response.length) (2/10)
        (addIf (∃ k ∈ accommodationKeywords, k <:+: lower response) (2/10)
          (addIf (∃ k ∈ activityKeywords, k <:+: lower response) (2/10)
            (addIf ("day".toList <:+: lower response) (2/10) 0)))))
    1

/-- One sub-score entry of the `evaluations` list built in
`_evaluate_single_case` (a dict with keys "type", "passed", "score"). -/
structure EvalEntry where
  etype : String
  passed : Bool
  score : ℚ
deriving DecidableEq

/-- The `details` dict of a case result: either `{"error": msg}` (generation
failed) or `{"evaluations": ..., "response": excerpt}`. -/
inductive Details where
  | err (msg : String)
  | evals (entries : List EvalEntry) (response_excerpt : List Char)
deriving DecidableEq

/-- The per-case result dict returned by `_evaluate_single_case`. -/
structure CaseResult where
  description : String
  passed : Bool
  score : ℚ
  details : Details
deriving DecidableEq

/-- The `test_case["input"]` mapping; `none` models an absent key. -/
structure TestInput where
  destination : Option (List Char)
  num_days : Option Int
deriving DecidableEq

/-- A test case as consumed by `_evaluate_single_case`. -/
structure TestCase where
  input : TestInput
deriving DecidableEq

/-- The external generation collaborator (`_generate_response`); an exception
with message `e` is `Except.error e`. -/
def Generator : Type := List Char → Int → Except String (List Char)

/-- The response excerpt stored in the details:
`response[:500] + "..." if len(response) > 500 else response`. -/
def excerpt (response : List Char) : List Char :=
  if 500 < response.length then response.take 500 ++ "...".toList else response

/-- The body of `_evaluate_single_case` after the two key extractions
(eval_utils.py lines 106-156): generation with exception containment,
the three sub-scores, and the combined verdict. -/
def case_verdict (gen : Generator) (destination : List Char) (num_days : Int)
    (case_index : Nat) : CaseResult :=
  match gen destination num_days with
  | Except.error e =>
      { description := "Test Case " ++ toString (case_index + 1)
        passed := false
        score := 0
        details := Details.err e }
  | Except.ok response =>
      let relevance_score := evaluate_relevance destination num_days response
      let contains_score := evaluate_contains destination response
      let quality_score := evaluate_quality response num_days
      let evaluations : List EvalEntry :=
        [ { etype := "answer-relevance"
            passed := decide ((7:ℚ)/10 ≤ relevance_score)
            score := relevance_score },
          { etype := "contains"
            passed := decide ((8:ℚ)/10 ≤ contains_score)
            score := contains_score },
          { etype := "llm-rubric"
            passed := decide ((7:ℚ)/10 ≤ quality_score)
            score := quality_score } ]
      { description := "Test Case " ++ toString (case_index + 1) ++ ": " ++
          String.mk destination ++ " for " ++ toString num_days ++ " days"
        passed := evaluations.all EvalEntry.passed
        score := (evaluations.map EvalEntry.score).sum / (evaluations.length : ℚ)
        details := Details.evals evaluations (excerpt response) }

/-- `TravelAgentEvaluator._evaluate_single_case` (eval_utils.py lines 92-156).
The key accesses `test_case["input"]["destination"]` and `["num_days"]`
(lines 103-104) happen before the `try:` block, so a missing key raises a
`KeyError` out of the function; that escape is the `Except.error` case. -/
def evaluate_single_case (gen : Generator) (test_case : TestCase)
    (case_index : Nat) : Except String CaseResult :=
  match test_case.input.destination with
  | none => Except.error "KeyError: destination"
  | some destination =>
    match test_case.input.num_days with
    | none => Except.error "KeyError: num_days"
    | some num_days => Except.ok (case_verdict gen destination num_days case_index)

/-- The `for i, test_case in enumerate(test_cases)` loop of `run_evaluation`
(eval_utils.py lines 78-81), starting at index `i`.  A `KeyError` escaping
`_evaluate_single_case` aborts the whole loop, hence the `Except` layer. -/
def evaluate_cases (gen : Generator) : List TestCase → Nat →
    Except String (List CaseResult)
  | [], _ => Except.ok []
  | tc :: rest, i =>
    match evaluate_single_case gen tc i with
    | Except.error e => Except.error e
    | Except.ok r =>
      match evaluate_cases gen rest (i + 1) with
      | Except.error e => Except.error e
      | Except.ok rs => Except.ok (r :: rs)

/-- The summary dict of `run_evaluation` (eval_utils.py lines 85-89). -/
structure Summary where
  total_tests : Nat
  passed_tests : Nat
  failed_tests : Nat
deriving DecidableEq

/-- The dict returned by `run_evaluation` on a nonempty case list. -/
structure EvalResult where
  results : List CaseResult
  summary : Summary
deriving DecidableEq

/-- `TravelAgentEvaluator.run_evaluation` (eval_utils.py lines 52-90), taking
the already-parsed list of test cases.  An empty list returns `none`
(Python `return None` after "No test cases found"); a `KeyError` escaping a
case aborts the run (`Except.error`). -/
def run_evaluation (gen : Generator) (test_cases : List TestCase) :
    Except String (Option EvalResult) :=
  match test_cases with
  | [] => Except.ok none
  | _ :: _ =>
    match evaluate_cases gen test_cases 0 with
    | Except.error e => Except.error e
    | Except.ok results =>
      Except.ok (some
        { results := results
          summary :=
            { total_tests := results.length
              passed_tests := (results.filter (fun r => r.passed)).length
              failed_tests := (results.filter (fun r => !r.passed)).length } })

/-- Python `str.strip` whitespace set (space, tab, newline, carriage return,
vertical tab, form feed). -/
def pyWhitespace (c : Char) : Bool :=
  c == ' ' || c == '\t' || c == '\n' || c == '\r' ||
  c == Char.ofNat 11 || c == Char.ofNat 12

/-- The nonblank-line filter of the test-data read loop in `run_evaluation`
(eval_utils.py lines 68-71): `if line.strip():` keeps exactly the lines with
some non-whitespace character. -/
def keptLines (lines : List (List Char)) : List (List Char) :=
  lines.filter (fun l => !(l.all pyWhitespace))

/-- One entry of the `failed_cases` list built by `analyze_results`. -/
structure FailedCase where
  test : String
  score : ℚ
  details : Details
deriving DecidableEq

/-- The analysis dict built by `analyze_results`. -/
structure Analysis where
  total_tests : Nat
  passed_tests : Nat
  failed_tests : Nat
  failed_cases : List FailedCase
  insights : List String
  recommendations : List String
deriving DecidableEq

/-- `TravelAgentEvaluator.analyze_results` (eval_utils.py lines 304-356).
The counting loop is rendered with order-preserving filters; the insight
rules are exactly the two `if`s at lines 342-348 (note: the all-passed rule
has no `total > 0` guard in the source). -/
def analyze_results (results : EvalResult) : Analysis :=
  let rs := results.results
  let passed_tests := (rs.filter (fun r => r.passed)).length
  let failed := rs.filter (fun r => !r.passed)
  let failed_tests := failed.length
  let failed_cases := failed.map (fun r => FailedCase.mk r.description r.score r.details)
  let insights :=
    (if 0 < failed_tests then
        ["Found " ++ toString failed_tests ++ " failed test cases that need attention"]
      else []) ++
    (if passed_tests = rs.length then
        ["All tests passed - agent is performing well"]
      else [])
  let recommendations :=
    match failed_cases with
    | [] => []
    | _ :: _ => ["Review and improve agent prompts for failed test cases"]
  { total_tests := rs.length
    passed_tests := passed_tests
    failed_tests := failed_tests
    failed_cases := failed_cases
    insights := insights
    recommendations := recommendations }

/-- The `user_input` dict of a log entry (as written by the repository:
`{"destination": ..., "num_days": ...}`). -/
structure UserInput where
  destination : List Char
  num_days : Int
deriving DecidableEq

/-- One line of the JSONL log file, as written by `log_interaction`
(eval_utils.py lines 41-47). -/
structure LogEntry where
  timestamp : String
  user_input : UserInput
  planner_output : List Char
  researcher_output : Option (List Char)
  metadata : List (String × String)
deriving DecidableEq

/-- Arguments of one `log_interaction` call. -/
structure Interaction where
  timestamp : String
  user_input : UserInput
  planner_output : List Char
  researcher_output : Option (List Char)
  metadata : Option (List (String × String))
deriving DecidableEq

/-- `TravelAgentEvaluator.log_interaction` (eval_utils.py lines 27-50):
appends one record to the JSONL store (`metadata or {}`). -/
def log_interaction (store : List LogEntry) (a : Interaction) : List LogEntry :=
  store ++ [{ timestamp := a.timestamp
              user_input := a.user_input
              planner_output := a.planner_output
              researcher_output := a.researcher_output
              metadata := a.metadata.getD [] }]

/-- The test case shape produced by `convert_logs_to_test_data`. -/
structure ConvertedCase where
  destination : List Char
  num_days : Int
  expected : List Char
deriving DecidableEq

/-- `TravelAgentEvaluator.convert_logs_to_test_data` (eval_utils.py lines
271-302): maps every stored record to
`{input: {destination, num_days}, expected: planner_output}`. -/
def convert_logs_to_test_data (store : List LogEntry) : List ConvertedCase :=
  store.map (fun e =>
    { destination := e.user_input.destination
      num_days := e.user_input.num_days
      expected := e.planner_output })

/-! Helper lemmas about the scoring building blocks. -/

lemma addIf_nonneg {c : Prop} [Decidable c] {w s : ℚ} (hw : 0 ≤ w)
    (hs : 0 ≤ s) : 0 ≤ addIf c w s := by
  unfold addIf
  split
  · linarith
  · exact hs

lemma addIf_mono {c c' : Prop} [Decidable c] [Decidable c'] {w s t : ℚ}
    (hw : 0 ≤ w) (hst : s ≤ t) (himp : c → c') :
    addIf c w s ≤ addIf c' w t := by
  unfold addIf
  by_cases hc : c
  · rw [if_pos hc, if_pos (himp hc)]
    linarith
  · rw [if_neg hc]
    by_cases hc' : c'
    · rw [if_pos hc']
      linarith
    · rw [if_neg hc']
      exact hst

lemma pymin_le_right (a b : ℚ) : pymin a b ≤ b := by
  unfold pymin
  split
  · assumption
  · exact le_refl b

lemma pymin_nonneg {a b : ℚ} (ha : 0 ≤ a) (hb : 0 ≤ b) : 0 ≤ pymin a b := by
  unfold pymin
  split
  · exact ha
  · exact hb

lemma pymin_mono_left {a b : ℚ} (c : ℚ) (h : a ≤ b) : pymin a c ≤ pymin b c := by
  unfold pymin
  split
  · split
    · exact h
    · linarith
  · split
    · linarith
    · exact le_refl c

lemma lower_append (r s : List Char) : lower (r ++ s) = lower r ++ lower s :=
  List.map_append _ r s

lemma infix_of_prefix {n A : List Char} (h : n <+: A) : n <:+: A := by
  obtain ⟨v, hv⟩ := h
  exact ⟨[], v, by simpa using hv⟩

lemma infix_append_right {n A : List Char} (t : List Char) (h : n <:+: A) :
    n <:+: A ++ t := by
  obtain ⟨u, v, huv⟩ := h
  exact ⟨u, v ++ t, by rw [← huv]; simp⟩

lemma prefix_of_prefix_append {p A t : List Char} (hq : p <+: A ++ t)
    (hle : p.length ≤ A.length) : p <+: A := by
  have h1 : p = (A ++ t).take p.length := List.prefix_iff_eq_take.mp hq
  rw [List.take_append_eq_append_take] at h1
  have h2 : p.length - A.length = 0 := by omega
  rw [h2, List.take_zero, List.append_nil] at h1
  rw [h1]
  exact List.take_prefix _ _

lemma countOccsAux_zero_of_short (p : List Char) :
    ∀ (f : Nat) (s : List Char), s.length < p.length → countOccsAux p f s = 0 := by
  intro f
  induction f with
  | zero =>
    intro s _
    cases s <;> rfl
  | succ f ih =>
    intro s hs
    cases s with
    | nil => rfl
    | cons c rest =>
      have hnp : ¬ (p ≠ [] ∧ p <+: (c :: rest)) := by
        rintro ⟨-, hp⟩
        have := hp.length_le
        simp only [List.length_cons] at this hs
        omega
      rw [countOccsAux, if_neg hnp]
      exact ih rest (by simp only [List.length_cons] at hs; omega)

lemma countOccsAux_mono (p t : List Char) :
    ∀ (f : Nat) (r : List Char), r.length ≤ f →
      countOccsAux p f r ≤ countOccsAux p (f + t.length) (r ++ t) := by
  intro f
  induction f with
  | zero =>
    intro r hr
    have : r = [] := List.length_eq_zero.mp (Nat.le_zero.mp hr)
    subst this
    simp [countOccsAux]
  | succ f ih =>
    intro r hr
    cases r with
    | nil => simp [countOccsAux]
    | cons c rest =>
      have hrest : rest.length ≤ f := by
        simp only [List.length_cons] at hr
        omega
      have hcons : (c :: rest) ++ t = c :: (rest ++ t) := rfl
      have hfuel : f + 1 + t.length = (f + t.length) + 1 := by omega
      rw [hcons, hfuel]
      by_cases hp : p ≠ [] ∧ p <+: (c :: rest)
      · have hp' : p ≠ [] ∧ p <+: (c :: (rest ++ t)) := by
          refine ⟨hp.1, ?_⟩
          have : (c :: rest) ++ t = c :: (rest ++ t) := rfl
          rw [← this]
          exact hp.2.trans (List.prefix_append _ _)
        rw [countOccsAux, if_pos hp, countOccsAux, if_pos hp']
        have hlen : p.length - 1 ≤ rest.length := by
          have := hp.2.length_le
          simp only [List.length_cons] at this
          omega
        have hdrop : (rest ++ t).drop (p.length - 1) =
            rest.drop (p.length - 1) ++ t.drop (p.length - 1 - rest.length) := by
          exact List.drop_append_eq_append_drop
        have hz : p.length - 1 - rest.length = 0 := by omega
        rw [hdrop, hz, List.drop_zero]
        have hlen2 : (rest.drop (p.length - 1)).length ≤ f := by
          simp only [List.length_drop]
          omega
        exact Nat.add_le_add_left (ih _ hlen2) 1
      · by_cases hq : p ≠ [] ∧ p <+: (c :: (rest ++ t))
        · rw [countOccsAux, if_neg hp, countOccsAux, if_pos hq]
          have hshort : rest.length < p.length := by
            by_contra hcon
            push_neg at hcon
            have hple : p.length ≤ (c :: rest).length := by
              simp only [List.length_cons]
              omega
            have : p <+: (c :: rest) := by
              have : p <+: (c :: rest) ++ t := by
                rw [hcons]
                exact hq.2
              exact prefix_of_prefix_append this hple
            exact hp ⟨hq.1, this⟩
          rw [countOccsAux_zero_of_short p f rest hshort]
          exact Nat.zero_le _
        · rw [countOccsAux, if_neg hp, countOccsAux, if_neg hq]
          exact ih rest hrest

lemma countOccs_le_append (p r t : List Char) :
    countOccs p r ≤ countOccs p (r ++ t) := by
  have h := countOccsAux_mono p t r.length r (le_refl _)
  simpa [countOccs, List.length_append] using h

lemma length_filter_split {α : Type} (p : α → Bool) (l : List α) :
    (l.filter p).length + (l.filter (fun x => !p x)).length = l.length := by
  induction l with
  | nil => rfl
  | cons a l ih =>
    by_cases h : p a = true
    · simp [List.filter, h, ← ih]
      omega
    · have h' : p a = false := by
        cases hpa : p a
        · rfl
        · exact absurd hpa h
      simp [List.filter, h', ← ih]
      omega

end TravelEval

namespace TravelEval

/-- C5: for every destination, number of days and response, each of the three
scorers returns a value in the closed interval [0, 1]; the `min(score, 1.0)`
cap bounds the accumulated sum above and the sum of nonnegative weights
bounds it below. -/
theorem scorers_bounded (destination : List Char) (num_days : Int)
    (response : List Char) :
    (0 ≤ evaluate_relevance destination num_days response ∧
      evaluate_relevance destination num_days response ≤ 1) ∧
    (0 ≤ evaluate_contains destination response ∧
      evaluate_contains destination response ≤ 1) ∧
    (0 ≤ evaluate_quality response num_days ∧
      evaluate_quality response num_days ≤ 1) := by
  refine ⟨⟨?_, ?_⟩, ⟨?_, ?_⟩, ⟨?_, ?_⟩⟩
  · unfold evaluate_relevance
    exact pymin_nonneg
      (addIf_nonneg (by norm_num) (addIf_nonneg (by norm_num)
        (addIf_nonneg (by norm_num) (addIf_nonneg (by norm_num) (le_refl 0)))))
      (by norm_num)
  · exact pymin_le_right _ _
  · unfold evaluate_contains
    exact pymin_nonneg
      (addIf_nonneg (by norm_num) (addIf_nonneg (by norm_num)
        (addIf_nonneg (by norm_num) (le_refl 0))))
      (by norm_num)
  · exact pymin_le_right _ _
  · unfold evaluate_quality
    exact pymin_nonneg
      (addIf_nonneg (by norm_num) (addIf_nonneg (by norm_num)
        (addIf_nonneg (by norm_num) (addIf_nonneg (by norm_num)
          (addIf_nonneg (by norm_num) (le_refl 0))))))
      (by norm_num)
  · exact pymin_le_right _ _

/-- C10: each of the three scorers is monotone under appending text to the
response: every component check (case-insensitive substring containment,
length threshold, occurrence count of "day") is preserved by extending the
response, so every accumulated score can only grow. -/
theorem scorers_monotone_append (destination : List Char) (num_days : Int)
    (r s : List Char) :
    evaluate_relevance destination num_days r ≤
      evaluate_relevance destination num_days (r ++ s) ∧
    evaluate_contains destination r ≤ evaluate_contains destination (r ++ s) ∧
    evaluate_quality r num_days ≤ evaluate_quality (r ++ s) num_days := by
  have hlow : ∀ n : List Char, n <:+: lower r → n <:+: lower (r ++ s) := by
    intro n hn
    rw [lower_append]
    exact infix_append_right _ hn
  have hraw : ∀ n : List Char, n <:+: r → n <:+: r ++ s :=
    fun n hn => infix_append_right _ hn
  refine ⟨?_, ?_, ?_⟩
  · unfold evaluate_relevance
    apply pymin_mono_left
    apply addIf_mono (by norm_num)
    · apply addIf_mono (by norm_num)
      · apply addIf_mono (by norm_num)
        · apply addIf_mono (by norm_num) (le_refl 0)
          exact hlow _
        · intro h
          exact h.imp (hraw _) (hlow _)
      · intro h
        exact h.imp (hlow _) (fun h1 => h1.imp (hraw _) (hlow _))
    · rintro ⟨k, hk, hin⟩
      exact ⟨k, hk, hlow _ hin⟩
  · unfold evaluate_contains
    apply pymin_mono_left
    apply addIf_mono (by norm_num)
    · apply addIf_mono (by norm_num)
      · apply addIf_mono (by norm_num) (le_refl 0)
        exact hlow _
      · intro h
        exact h.imp (hlow _) (hlow _)
    · exact hlow _
  · unfold evaluate_quality
    apply pymin_mono_left
    apply addIf_mono (by norm_num)
    · apply addIf_mono (by norm_num)
      · apply addIf_mono (by norm_num)
        · apply addIf_mono (by norm_num)
          · apply addIf_mono (by norm_num) (le_refl 0)
            exact hlow _
          · rintro ⟨k, hk, hin⟩
            exact ⟨k, hk, hlow _ hin⟩
        · rintro ⟨k, hk, hin⟩
          exact ⟨k, hk, hlow _ hin⟩
      · intro h
        simp only [List.length_append]
        omega
    · intro h
      refine le_trans h ?_
      rw [lower_append]
      exact_mod_cast Nat.cast_le.mpr (countOccs_le_append _ _ _)

/-! Concrete collaborators and inputs used by the closed evidence theorems. -/

/-- A generation collaborator that always succeeds with a fixed response. -/
def genAny : Generator := fun _ _ => Except.ok ("x".toList)

/-- A generation collaborator that always raises (message "boom"). -/
def genBoom : Generator := fun _ _ => Except.error "boom"

/-- A generation collaborator that always succeeds with the response "ok". -/
def genOk : Generator := fun _ _ => Except.ok ("ok".toList)

/-- A well-formed test case: `{"input": {"destination": "Paris", "num_days": 3}}`. -/
def tcParis : TestCase := { input := { destination := some ("Paris".toList), num_days := some 3 } }

/-- C1: the claim says a test case missing the key "destination" or
"num_days" yields a CaseResult with the error field set and the failure is
never raised to the batch level.  The code contradicts this (and its own
spec): the key accesses at eval_utils.py lines 103-104 sit before the
`try:` block, so the KeyError escapes `_evaluate_single_case` and aborts
`run_evaluation`; this theorem evaluates the code at such failing inputs. -/
theorem keyerror_escapes_case_evaluator :
    evaluate_single_case genAny
        { input := { destination := none, num_days := some 3 } } 0 =
      Except.error "KeyError: destination" ∧
    evaluate_single_case genAny
        { input := { destination := some ("Paris".toList), num_days := none } } 0 =
      Except.error "KeyError: num_days" ∧
    run_evaluation genAny [{ input := { destination := none, num_days := some 3 } }] =
      Except.error "KeyError: destination" :=
  ⟨rfl, rfl, rfl⟩

lemma evaluate_cases_wellformed (gen : Generator) :
    ∀ (cases : List TestCase) (i : Nat),
      (∀ c ∈ cases, ∃ d n, c.input = ⟨some d, some n⟩) →
      ∃ rs, evaluate_cases gen cases i = Except.ok rs ∧
        rs.length = cases.length ∧
        ∀ (j : Nat) (hj : j < rs.length) (hj' : j < cases.length),
          Except.ok (rs.get ⟨j, hj⟩) =
            evaluate_single_case gen (cases.get ⟨j, hj'⟩) (i + j) := by
  intro cases
  induction cases with
  | nil =>
    intro i _
    exact ⟨[], rfl, rfl, fun j hj _ => absurd hj (by simp)⟩
  | cons c cs ih =>
    intro i hw
    obtain ⟨d, n, hin⟩ := hw c (List.mem_cons_self c cs)
    have hc : evaluate_single_case gen c i = Except.ok (case_verdict gen d n i) := by
      unfold evaluate_single_case
      rw [hin]
    obtain ⟨rs, h1, h2, h3⟩ := ih (i + 1) (fun x hx => hw x (List.mem_cons_of_mem c hx))
    refine ⟨case_verdict gen d n i :: rs, ?_, by simp [h2], ?_⟩
    · simp only [evaluate_cases]
      rw [hc, h1]
    · intro j hj hj'
      cases j with
      | zero => simpa using hc.symm
      | succ k =>
        have hk : k < rs.length := by simpa using hj
        have hk' : k < cs.length := by simpa using hj'
        have harith : i + (k + 1) = (i + 1) + k := by omega
        have := h3 k hk hk'
        simpa [harith] using this

/-- C2: for a well-formed test case whose generation collaborator raises, the
case evaluator returns (does not propagate) a CaseResult with passed = false,
score = 0, the error field set to the exception message and no sub-scores;
and every batch of well-formed cases completes with one result per case, each
being exactly what single-case evaluation yields. -/
theorem generation_failure_contained (gen : Generator) (tc : TestCase)
    (destination : List Char) (num_days : Int) (e : String) (i : Nat)
    (hin : tc.input = ⟨some destination, some num_days⟩)
    (hgen : gen destination num_days = Except.error e) :
    evaluate_single_case gen tc i =
      Except.ok { description := "Test Case " ++ toString (i + 1)
                  passed := false
                  score := 0
                  details := Details.err e } ∧
    ∀ (cases : List TestCase), cases ≠ [] →
      (∀ c ∈ cases, ∃ d n, c.input = ⟨some d, some n⟩) →
      ∃ res, run_evaluation gen cases = Except.ok (some res) ∧
        res.results.length = cases.length ∧
        ∀ (j : Nat) (hj : j < res.results.length) (hj' : j < cases.length),
          Except.ok (res.results.get ⟨j, hj⟩) =
            evaluate_single_case gen (cases.get ⟨j, hj'⟩) j := by
  constructor
  · unfold evaluate_single_case
    rw [hin]
    dsimp only
    unfold case_verdict
    rw [hgen]
  · intro cases hne hw
    obtain ⟨rs, h1, h2, h3⟩ := evaluate_cases_wellformed gen cases 0 hw
    cases cases with
    | nil => exact absurd rfl hne
    | cons c cs =>
      refine ⟨{ results := rs
                summary :=
                  { total_tests := rs.length
                    passed_tests := (rs.filter (fun r => r.passed)).length
                    failed_tests := (rs.filter (fun r => !r.passed)).length } },
        ?_, by simpa using h2, ?_⟩
      · unfold run_evaluation
        rw [h1]
      · intro j hj hj'
        have := h3 j (by simpa using hj) hj'
        simpa using this

/-- C2 witness: a concrete raising collaborator and a concrete singleton
batch instantiating `generation_failure_contained`. -/
theorem generation_failure_contained_witness :
    (evaluate_single_case genBoom tcParis 0 =
      Except.ok { description := "Test Case " ++ toString (0 + 1)
                  passed := false
                  score := 0
                  details := Details.err "boom" }) ∧
    (∃ res, run_evaluation genBoom [tcParis] = Except.ok (some res) ∧
      res.results.length = [tcParis].length ∧
      ∀ (j : Nat) (hj : j < res.results.length) (hj' : j < [tcParis].length),
        Except.ok (res.results.get ⟨j, hj⟩) =
          evaluate_single_case genBoom ([tcParis].get ⟨j, hj'⟩) j) :=
  ⟨(generation_failure_contained genBoom tcParis ("Paris".toList) 3 "boom" 0 rfl rfl).1,
    (generation_failure_contained genBoom tcParis ("Paris".toList) 3 "boom" 0 rfl rfl).2
      [tcParis] (by simp)
      (fun c hc => List.mem_singleton.mp hc ▸ ⟨"Paris".toList, 3, rfl⟩)⟩

/-- C3: on a successfully generated response, the case verdict's passed flag
is the conjunction of the three threshold checks (relevance at 0.7, contains
at 0.8, quality at 0.7) and its score is the arithmetic mean of the three
sub-scores. -/
theorem case_result_mean_and_conjunction (gen : Generator)
    (destination : List Char) (num_days : Int) (response : List Char) (i : Nat)
    (hgen : gen destination num_days = Except.ok response) :
    (case_verdict gen destination num_days i).passed =
      (decide ((7:ℚ)/10 ≤ evaluate_relevance destination num_days response) &&
       decide ((8:ℚ)/10 ≤ evaluate_contains destination response) &&
       decide ((7:ℚ)/10 ≤ evaluate_quality response num_days)) ∧
    (case_verdict gen destination num_days i).score =
      (evaluate_relevance destination num_days response +
       evaluate_contains destination response +
       evaluate_quality response num_days) / 3 := by
  unfold case_verdict
  rw [hgen]
  constructor
  · simp [List.all, Bool.and_assoc]
  · simp only [List.map_cons, List.map_nil, List.sum_cons, List.sum_nil,
      List.length_cons, List.length_nil]
    push_cast
    ring

/-- C3 witness: a concrete succeeding collaborator instantiating
`case_result_mean_and_conjunction`. -/
theorem case_result_mean_and_conjunction_witness :
    genOk ("Paris".toList) 3 = Except.ok ("ok".toList) ∧
    ((case_verdict genOk ("Paris".toList) 3 0).passed =
      (decide ((7:ℚ)/10 ≤ evaluate_relevance ("Paris".toList) 3 ("ok".toList)) &&
       decide ((8:ℚ)/10 ≤ evaluate_contains ("Paris".toList) ("ok".toList)) &&
       decide ((7:ℚ)/10 ≤ evaluate_quality ("ok".toList) 3)) ∧
    (case_verdict genOk ("Paris".toList) 3 0).score =
      (evaluate_relevance ("Paris".toList) 3 ("ok".toList) +
       evaluate_contains ("Paris".toList) ("ok".toList) +
       evaluate_quality ("ok".toList) 3) / 3) :=
  ⟨rfl, case_result_mean_and_conjunction genOk ("Paris".toList) 3 ("ok".toList) 0 rfl⟩

/-- C4: every returned batch result satisfies total = number of results =
passed + failed, with passed counting exactly the results whose passed flag
is true. -/
theorem summary_counts_invariant (gen : Generator) (cases : List TestCase)
    (res : EvalResult) (h : run_evaluation gen cases = Except.ok (some res)) :
    res.summary.total_tests = res.results.length ∧
    res.summary.total_tests = res.summary.passed_tests + res.summary.failed_tests ∧
    res.summary.passed_tests = (res.results.filter (fun r => r.passed)).length := by
  unfold run_evaluation at h
  cases cases with
  | nil => simp at h
  | cons c cs =>
    cases hec : evaluate_cases gen (c :: cs) 0 with
    | error e =>
      rw [hec] at h
      simp at h
    | ok results =>
      rw [hec] at h
      simp only [Except.ok.injEq, Option.some.injEq] at h
      subst h
      refine ⟨rfl, ?_, rfl⟩
      exact (length_filter_split (fun r => r.passed) results).symm

/-- The batch result produced by running the always-raising collaborator on
the singleton Paris batch. -/
def resBoom : EvalResult :=
  { results := [{ description := "Test Case 1"
                  passed := false
                  score := 0
                  details := Details.err "boom" }]
    summary := { total_tests := 1, passed_tests := 0, failed_tests := 1 } }

/-- C4 witness: a concrete batch run instantiating `summary_counts_invariant`. -/
theorem summary_counts_invariant_witness :
    run_evaluation genBoom [tcParis] = Except.ok (some resBoom) ∧
    (resBoom.summary.total_tests = resBoom.results.length ∧
    resBoom.summary.total_tests =
      resBoom.summary.passed_tests + resBoom.summary.failed_tests ∧
    resBoom.summary.passed_tests =
      (resBoom.results.filter (fun r => r.passed)).length) :=
  ⟨rfl, summary_counts_invariant genBoom [tcParis] resBoom rfl⟩

/-! Analyzer insight rules (C6). -/

lemma found_msg_ne_all_msg (x : String) :
    ("Found " ++ x ++ " failed test cases that need attention") ≠
      "All tests passed - agent is performing well" := by
  intro h
  have h2 := congrArg (fun t : String => t.data.head?) h
  simp only [String.data_append] at h2
  simp only [List.cons_append, List.head?_cons] at h2
  exact absurd h2 (by decide)

lemma all_msg_ne_found_msg (x : String) :
    ("All tests passed - agent is performing well") ≠
      ("Found " ++ x ++ " failed test cases that need attention") :=
  fun h => found_msg_ne_all_msg x h.symm

/-- C6 counterexample: analyzing a batch result with zero results does emit
the all-tests-passed insight (the code has no `total > 0` guard), refuting
the claim at the concrete input `{"results": []}`. -/
theorem analyze_empty_emits_all_passed :
    ("All tests passed - agent is performing well") ∈
      (analyze_results { results := [], summary := ⟨0, 0, 0⟩ }).insights ∧
    ({ results := [], summary := ⟨0, 0, 0⟩ } : EvalResult).results = [] := by
  constructor
  · simp [analyze_results]
  · rfl

/-- C6 amended: the analyzer emits the failed-count insight exactly when
failed_count > 0, and emits the all-tests-passed insight exactly when
passed_count equals total — including the vacuous zero-results case. -/
theorem insight_rules (res : EvalResult) :
    (("All tests passed - agent is performing well") ∈
        (analyze_results res).insights ↔
      (analyze_results res).passed_tests = (analyze_results res).total_tests) ∧
    (("Found " ++ toString (analyze_results res).failed_tests ++
          " failed test cases that need attention") ∈
        (analyze_results res).insights ↔
      0 < (analyze_results res).failed_tests) := by
  simp only [analyze_results]
  by_cases hf : 0 < (res.results.filter (fun r => !r.passed)).length <;>
    by_cases hp :
      (res.results.filter (fun r => r.passed)).length = res.results.length <;>
    simp [hf, hp, List.mem_append, found_msg_ne_all_msg, all_msg_ne_found_msg]

/-! The Paris scenario (C7). -/

/-- The scenario response of the spec:
"Day 1: Visit the Eiffel Tower. Day 2: Explore the Louvre. Stay at a hotel
near the Seine." -/
def resp7 : List Char :=
  ("Day 1: Visit the Eiffel Tower. Day 2: Explore the Louvre. Stay at a hotel near the Seine.").toList

/-- A collaborator returning exactly the scenario response. -/
def genScenario : Generator := fun _ _ => Except.ok resp7

lemma scenario_relevance_value :
    evaluate_relevance ("Paris".toList) 2 resp7 = 7/10 := by
  have h1 : ¬ (lower ("Paris".toList) <:+: lower resp7) := by decide
  have h2 : (intStr 2 <:+: resp7 ∨
      (intStr 2 ++ "-day".toList) <:+: lower resp7) := by decide
  have h3 : ("day".toList <:+: lower resp7 ∧
      ("1".toList <:+: resp7 ∨ "first".toList <:+: lower resp7)) := by decide
  have h4 : (∃ k ∈ travelKeywords, k <:+: lower resp7) := by decide
  simp only [evaluate_relevance, addIf, pymin, h1, h2, h3, h4, if_true, if_false,
    iff_true, iff_false]
  rw [if_pos (by norm_num)]
  norm_num

lemma scenario_contains_value :
    evaluate_contains ("Paris".toList) resp7 = 3/10 := by
  have h1 : ¬ (lower ("Paris".toList) <:+: lower resp7) := by decide
  have h2 : ("day 1".toList <:+: lower resp7 ∨
      "day one".toList <:+: lower resp7) := by decide
  have h3 : ¬ ("itinerary".toList <:+: lower resp7) := by decide
  simp only [evaluate_contains, addIf, pymin, h1, h2, h3, if_true, if_false,
    iff_true, iff_false]
  rw [if_pos (by norm_num)]
  norm_num

/-- C7 counterexample: the claim asserts the contains score of the Paris
scenario is 0.7; the destination "Paris" does not occur in the response, so
only the "day 1" check fires and the score is 0.3, not 0.7. -/
theorem scenario_contains_not_seven_tenths :
    ¬ (evaluate_contains ("Paris".toList) resp7 = 7/10) := by
  rw [scenario_contains_value]
  norm_num

/-- C7 amended: for the Paris scenario the relevance score is at least 0.7
(so relevance passes), the contains score is 0.3 — below the 0.8 threshold,
so the contains check fails — and the overall CaseResult has passed = false. -/
theorem scenario_paris_two_days :
    (7:ℚ)/10 ≤ evaluate_relevance ("Paris".toList) 2 resp7 ∧
    evaluate_contains ("Paris".toList) resp7 = 3/10 ∧
    ¬ ((8:ℚ)/10 ≤ evaluate_contains ("Paris".toList) resp7) ∧
    (case_verdict genScenario ("Paris".toList) 2 0).passed = false := by
  refine ⟨?_, scenario_contains_value, ?_, ?_⟩
  · rw [scenario_relevance_value]
  · rw [scenario_contains_value]
    norm_num
  · unfold case_verdict
    rw [show genScenario ("Paris".toList) 2 = Except.ok resp7 from rfl]
    dsimp only
    rw [scenario_contains_value]
    rw [decide_eq_false (by norm_num : ¬ ((8:ℚ)/10 ≤ 3/10))]
    simp

/-! Logger round trip (C8). -/

lemma foldl_log_interaction (entries : List Interaction) :
    ∀ store : List LogEntry,
      entries.foldl log_interaction store =
        store ++ entries.map (fun a =>
          { timestamp := a.timestamp
            user_input := a.user_input
            planner_output := a.planner_output
            researcher_output := a.researcher_output
            metadata := a.metadata.getD [] }) := by
  induction entries with
  | nil =>
    intro store
    simp
  | cons a rest ih =>
    intro store
    simp only [List.foldl_cons, List.map_cons]
    rw [ih]
    simp [log_interaction]

/-- C8: logging any sequence of interaction records and converting the full
store yields, in order, one test case per record with the logged destination,
num_days and planner_output (as the expected field). -/
theorem log_convert_round_trip (entries : List Interaction) :
    convert_logs_to_test_data (entries.foldl log_interaction []) =
      entries.map (fun a =>
        { destination := a.user_input.destination
          num_days := a.user_input.num_days
          expected := a.planner_output }) := by
  rw [foldl_log_interaction entries []]
  simp only [List.nil_append, convert_logs_to_test_data, List.map_map]
  rfl

/-! Empty-input signal (C9). -/

/-- C9: a test-case source whose lines are all blank yields zero usable test
cases, and the batch runner returns the distinct empty-input signal (`none`)
rather than a zero-filled batch result or an error. -/
theorem empty_input_signal (gen : Generator) (parse : List Char → TestCase)
    (lines : List (List Char))
    (h : ∀ l ∈ lines, l.all pyWhitespace = true) :
    run_evaluation gen ((keptLines lines).map parse) = Except.ok none := by
  have hk : keptLines lines = [] := by
    simp only [keptLines, List.filter_eq_nil_iff]
    intro a ha
    simp [h a ha]
  rw [hk]
  rfl

/-- C9 witness: a blank-line-only source instantiating `empty_input_signal`. -/
theorem empty_input_signal_witness :
    (∀ l ∈ [("".toList), ("   ".toList)], l.all pyWhitespace = true) ∧
    run_evaluation genAny
        ((keptLines [("".toList), ("   ".toList)]).map (fun _ => tcParis)) =
      Except.ok none :=
  ⟨by decide,
    empty_input_signal genAny (fun _ => tcParis)
      [("".toList), ("   ".toList)] (by decide)⟩

end TravelEval
